import Mathlib

/-!
Shallow embedding of the simulation core of `src/main.cpp`
("Space Defender", a GLUT arcade shooter).

Modelling conventions:
* C++ `float` world coordinates, speeds and timers are embedded as `ℚ`
  (the program only ever adds, subtracts and compares these quantities,
  so exact rational arithmetic represents every reachable value exactly;
  the constants 0.5 and 1.5 are the rationals 1/2 and 3/2).
* `int` fields (`lives`, `score`, `currentLevel`, `enemySpawnRate`) are `Int`.
* Every collision test in the source is `sqrt(dx*dx + dy*dy) < t`; on
  nonnegative reals this holds iff `0 < t ∧ dx*dx + dy*dy < t*t`, which is
  how `distLt` renders it (no square roots needed over `ℚ`).
* The free-standing globals of the source are gathered into one record
  `GState`; the per-frame `update(int)` callback (lines 425-579) becomes
  the pure function `update : Rand → GState → GState`, where `Rand` carries
  the values produced by the (at most five) `rand()` calls of one tick.
* `glutPostRedisplay`, drawing and the timer re-registration have no effect
  on simulation state and are not modelled.
-/

namespace SpaceDefender

/-- `const int WIDTH = 800` (line 11). -/
def WIDTH : Nat := 800

/-- `const int HEIGHT = 600` (line 12). -/
def HEIGHT : Nat := 600

/-- `enum GameState { MENU, PLAYING, GAME_OVER }` (line 15). -/
inductive GameState where
  | MENU
  | PLAYING
  | GAME_OVER
deriving DecidableEq, Repr

/-- `struct Player` (lines 19-25). -/
structure Player where
  x : ℚ
  y : ℚ
  size : ℚ
  speed : ℚ
  lives : Int
  score : Int
deriving DecidableEq, Repr

/-- `struct Bullet` (lines 28-32). -/
structure Bullet where
  x : ℚ
  y : ℚ
  speed : ℚ
  active : Bool
deriving DecidableEq, Repr

/-- `struct Enemy` (lines 35-40); `type` selects one of 4 cosmetic shapes. -/
structure Enemy where
  x : ℚ
  y : ℚ
  speed : ℚ
  active : Bool
  type : Nat
deriving DecidableEq, Repr

/-- `struct PowerUp` (lines 43-47). -/
structure PowerUp where
  x : ℚ
  y : ℚ
  speed : ℚ
  active : Bool
deriving DecidableEq, Repr

/-- The entries of `bool keys[256]` that the simulation core reads
(lines 459-474): the lower- and upper-case movement keys. -/
structure Keys where
  a : Bool
  aCap : Bool
  d : Bool
  dCap : Bool
  w : Bool
  wCap : Bool
  s : Bool
  sCap : Bool
deriving DecidableEq, Repr

/-- All movement keys released. -/
def noKeys : Keys := ⟨false, false, false, false, false, false, false, false⟩

/-- The values returned by the successive `rand()` calls a single tick can
make: two for the enemy spawn x (line 487), one for the enemy speed
(line 491), one for the enemy type (line 494), one for the power-up x
(line 542). -/
structure Rand where
  r1 : Nat
  r2 : Nat
  r3 : Nat
  r4 : Nat
  r5 : Nat
deriving DecidableEq, Repr

/-- A fixed draw sequence (all zeros) used for concrete evaluations. -/
def rnd0 : Rand := ⟨0, 0, 0, 0, 0⟩

/-- The whole mutable global state of the program: `gameState` (line 16),
`player` (line 25), the three entity vectors (lines 50-52), the animation
and difficulty globals (lines 55-64) and the key table (line 67). -/
structure GState where
  gameState : GameState
  player : Player
  bullets : List Bullet
  enemies : List Enemy
  powerUps : List PowerUp
  starOffset : ℚ
  enemySpawnTimer : ℚ
  powerUpTimer : ℚ
  gameLevelTimer : ℚ
  currentLevel : Int
  enemySpawnRate : Int
  lastHitTimer : ℚ
  playerShape : Int
  keys : Keys
deriving DecidableEq, Repr

/-- `sqrt(dx*dx + dy*dy) < t` on exact rationals: for a nonnegative radicand
this is equivalent to `0 < t ∧ dx*dx + dy*dy < t*t`. -/
def distLt (dx dy t : ℚ) : Bool :=
  decide (0 < t) && decide (dx * dx + dy * dy < t * t)

/-- Output of the level-management block. -/
structure LevelOut where
  level : Int
  rate : Int
  timer : ℚ
deriving DecidableEq, Repr

/-- Level management (lines 437-445): once `gameLevelTimer` (already
incremented this tick) reaches 900, raise the level if it is below 3,
recompute `enemySpawnRate = 60 - (currentLevel - 1) * 25` from the new
level, and reset the timer in either case. -/
def levelStep (lvl rate : Int) (glt : ℚ) : LevelOut :=
  if glt ≥ 900 then
    if lvl < 3 then
      { level := lvl + 1, rate := 60 - (lvl + 1 - 1) * 25, timer := 0 }
    else
      { level := lvl, rate := rate, timer := 0 }
  else
    { level := lvl, rate := rate, timer := glt }

/-- Output of the survival-penalty block. -/
structure PenaltyOut where
  timer : ℚ
  lives : Int
  st : GameState
deriving DecidableEq, Repr

/-- Survival penalty (lines 447-456): once `lastHitTimer` (already
incremented this tick) reaches 300, decrement lives and reset the timer
when lives are positive, then transition to `GAME_OVER` when the
(possibly decremented) lives are `≤ 0`. -/
def penaltyStep (lht : ℚ) (lives : Int) (st : GameState) : PenaltyOut :=
  if lht ≥ 300 then
    let lives' := if lives > 0 then lives - 1 else lives
    let lht' := if lives > 0 then (0 : ℚ) else lht
    { timer := lht', lives := lives',
      st := if lives' ≤ 0 then GameState.GAME_OVER else st }
  else
    { timer := lht, lives := lives, st := st }

/-- Player movement with clamping (lines 459-474). Each pressed direction
moves by `player.speed`, then the coordinate is clamped so the ship stays
inside `[size, WIDTH - size] × [size, HEIGHT - size]`. -/
def movePlayer (k : Keys) (p : Player) : Player :=
  let p := if k.a || k.aCap then
      let x := p.x - p.speed
      { p with x := if x < p.size then p.size else x }
    else p
  let p := if k.d || k.dCap then
      let x := p.x + p.speed
      { p with x := if x > (WIDTH : ℚ) - p.size then (WIDTH : ℚ) - p.size else x }
    else p
  let p := if k.w || k.wCap then
      let y := p.y + p.speed
      { p with y := if y > (HEIGHT : ℚ) - p.size then (HEIGHT : ℚ) - p.size else y }
    else p
  if k.s || k.sCap then
    let y := p.y - p.speed
    { p with y := if y < p.size then p.size else y }
  else p

/-- One bullet of the bullet-movement loop (lines 477-482): an active bullet
rises by its speed and is deactivated above the top boundary. -/
def bulletMove (b : Bullet) : Bullet :=
  if b.active then
    let b := { b with y := b.y + b.speed }
    if b.y > (HEIGHT : ℚ) then { b with active := false } else b
  else b

/-- The bullet-movement loop (lines 477-482). -/
def updateBullets (bs : List Bullet) : List Bullet :=
  bs.map bulletMove

/-- Output of the enemy-spawn block. -/
structure ESpawnOut where
  timer : ℚ
  enemies : List Enemy
deriving DecidableEq, Repr

/-- Enemy spawning (lines 485-497): when `enemySpawnTimer` (already
incremented) exceeds `enemySpawnRate`, append one enemy with
`x = rand() % (WIDTH - 40) + rand() % 20`, `y = HEIGHT`,
`speed = 2.0 + rand() % 3 + currentLevel * 0.5`, `type = rand() % 4`,
and reset the timer. -/
def spawnEnemies (rnd : Rand) (lvl rate : Int) (est : ℚ) (es : List Enemy) :
    ESpawnOut :=
  if est > (rate : ℚ) then
    { timer := 0,
      enemies := es ++ [{
        x := ((rnd.r1 % (WIDTH - 40) : Nat) : ℚ) + ((rnd.r2 % 20 : Nat) : ℚ),
        y := (HEIGHT : ℚ),
        speed := 2 + ((rnd.r3 % 3 : Nat) : ℚ) + (lvl : ℚ) * (1 / 2),
        active := true,
        type := rnd.r4 % 4 }] }
  else
    { timer := est, enemies := es }

/-- Output of one enemy's move/cull/player-collision step. -/
structure EnemyStepOut where
  enemy : Enemy
  player : Player
  st : GameState
deriving DecidableEq, Repr

/-- The body of the enemy loop (lines 500-517) for one enemy: an active
enemy falls by its speed and is deactivated below `y = -30`; then —
unconditionally, with the updated `y` — the distance to the player is
tested against `player.size + 15`: on overlap the enemy is deactivated,
`lives` is decremented (with no lower guard), and the mode becomes
`GAME_OVER` when `lives ≤ 0`. -/
def enemyPlayerStep (p : Player) (st : GameState) (e : Enemy) : EnemyStepOut :=
  if e.active then
    let e := { e with y := e.y - e.speed }
    let e := if e.y < -30 then { e with active := false } else e
    if distLt (e.x - p.x) (e.y - p.y) (p.size + 15) then
      let e := { e with active := false }
      let p := { p with lives := p.lives - 1 }
      { enemy := e, player := p,
        st := if p.lives ≤ 0 then GameState.GAME_OVER else st }
    else
      { enemy := e, player := p, st := st }
  else
    { enemy := e, player := p, st := st }

/-- Output of the enemy loop. -/
structure EnemiesOut where
  enemies : List Enemy
  player : Player
  st : GameState
deriving DecidableEq, Repr

/-- The enemy update-and-player-collision loop (lines 500-517), threading
the player record and the game mode through the list in order. -/
def updateEnemies : List Enemy → Player → GameState → EnemiesOut
  | [], p, st => { enemies := [], player := p, st := st }
  | e :: es, p, st =>
    let one := enemyPlayerStep p st e
    let rest := updateEnemies es one.player one.st
    { enemies := one.enemy :: rest.enemies, player := rest.player,
      st := rest.st }

/-- Output of one bullet's inner enemy scan. -/
structure ScanOut where
  bullet : Bullet
  enemies : List Enemy
  score : Int
  lastHit : ℚ
deriving DecidableEq, Repr

/-- The inner loop of the bullet-enemy collision scan (lines 522-535) for
one bullet: each still-active enemy within distance 20 of the bullet is
deactivated, the bullet is deactivated, the score rises by 10 and the
no-hit timer resets to 0. Exactly as in the source, the bullet's `active`
flag is NOT re-tested inside this loop — only the enemy's is. -/
def scanEnemies : Bullet → List Enemy → Int → ℚ → ScanOut
  | b, [], sc, lht => { bullet := b, enemies := [], score := sc, lastHit := lht }
  | b, e :: es, sc, lht =>
    if e.active && distLt (b.x - e.x) (b.y - e.y) 20 then
      let rest := scanEnemies { b with active := false } es (sc + 10) 0
      { bullet := rest.bullet,
        enemies := { e with active := false } :: rest.enemies,
        score := rest.score, lastHit := rest.lastHit }
    else
      let rest := scanEnemies b es sc lht
      { bullet := rest.bullet, enemies := e :: rest.enemies,
        score := rest.score, lastHit := rest.lastHit }

/-- Output of the whole bullet-enemy pass. -/
structure PassOut where
  bullets : List Bullet
  enemies : List Enemy
  score : Int
  lastHit : ℚ
deriving DecidableEq, Repr

/-- The bullet-enemy collision scan (lines 520-537): bullets outer, enemies
inner; a bullet's `active` flag is tested once, before its inner scan. -/
def bulletEnemyPass : List Bullet → List Enemy → Int → ℚ → PassOut
  | [], es, sc, lht => { bullets := [], enemies := es, score := sc, lastHit := lht }
  | b :: bs, es, sc, lht =>
    if b.active then
      let one := scanEnemies b es sc lht
      let rest := bulletEnemyPass bs one.enemies one.score one.lastHit
      { bullets := one.bullet :: rest.bullets, enemies := rest.enemies,
        score := rest.score, lastHit := rest.lastHit }
    else
      let rest := bulletEnemyPass bs es sc lht
      { bullets := b :: rest.bullets, enemies := rest.enemies,
        score := rest.score, lastHit := rest.lastHit }

/-- Output of the power-up spawn block. -/
structure PSpawnOut where
  timer : ℚ
  powerUps : List PowerUp
deriving DecidableEq, Repr

/-- Power-up spawning (lines 540-548): when `powerUpTimer` (already
incremented) exceeds 300, append one power-up with
`x = rand() % (WIDTH - 40) + 20`, `y = HEIGHT`, `speed = 1.5`,
and reset the timer. -/
def spawnPowerUps (rnd : Rand) (put : ℚ) (ps : List PowerUp) : PSpawnOut :=
  if put > 300 then
    { timer := 0,
      powerUps := ps ++ [{
        x := ((rnd.r5 % (WIDTH - 40) : Nat) : ℚ) + 20,
        y := (HEIGHT : ℚ), speed := 3 / 2, active := true }] }
  else
    { timer := put, powerUps := ps }

/-- Output of one power-up's move/cull/pickup step. -/
structure PUStepOut where
  powerUp : PowerUp
  player : Player
deriving DecidableEq, Repr

/-- The body of the power-up loop (lines 551-566) for one power-up: an
active power-up falls by its speed and is deactivated below `y = -20`;
then — unconditionally, with the updated `y` — the distance to the player
is tested against `player.size + 10`: on overlap the power-up is
deactivated, `lives` is incremented only when below 5, and the score
rises by 20. -/
def powerUpStep (pl : Player) (pu : PowerUp) : PUStepOut :=
  if pu.active then
    let pu := { pu with y := pu.y - pu.speed }
    let pu := if pu.y < -20 then { pu with active := false } else pu
    if distLt (pu.x - pl.x) (pu.y - pl.y) (pl.size + 10) then
      let pu := { pu with active := false }
      let pl := { pl with lives := if pl.lives < 5 then pl.lives + 1 else pl.lives }
      let pl := { pl with score := pl.score + 20 }
      { powerUp := pu, player := pl }
    else
      { powerUp := pu, player := pl }
  else
    { powerUp := pu, player := pl }

/-- Output of the power-up loop. -/
structure PowerUpsOut where
  powerUps : List PowerUp
  player : Player
deriving DecidableEq, Repr

/-- The power-up update-and-pickup loop (lines 551-566). -/
def updatePowerUps : List PowerUp → Player → PowerUpsOut
  | [], pl => { powerUps := [], player := pl }
  | pu :: pus, pl =>
    let one := powerUpStep pl pu
    let rest := updatePowerUps pus one.player
    { powerUps := one.powerUp :: rest.powerUps, player := rest.player }

/-- End-of-tick compaction of a bullet collection (lines 569-570):
`erase(remove_if(not active))`, i.e. keep exactly the active elements in
their original relative order. -/
def cullBullets (bs : List Bullet) : List Bullet :=
  bs.filter (fun b => b.active)

/-- End-of-tick compaction of an enemy collection (lines 571-572). -/
def cullEnemies (es : List Enemy) : List Enemy :=
  es.filter (fun e => e.active)

/-- End-of-tick compaction of a power-up collection (lines 573-574). -/
def cullPowerUps (ps : List PowerUp) : List PowerUp :=
  ps.filter (fun p => p.active)

/-- Background star scrolling (lines 428-429). -/
def tickStar (s : GState) : ℚ :=
  let so := s.starOffset + 1 / 2
  if so > (HEIGHT : ℚ) then 0 else so

/-- Phase 1 of the tick: level management on the incremented level timer. -/
def tickLevel (s : GState) : LevelOut :=
  levelStep s.currentLevel s.enemySpawnRate (s.gameLevelTimer + 1)

/-- Phase 2 of the tick: survival penalty on the incremented no-hit timer. -/
def tickPenalty (s : GState) : PenaltyOut :=
  penaltyStep (s.lastHitTimer + 1) s.player.lives s.gameState

/-- Phase 3: player movement applied to the penalty-adjusted player. -/
def tickPlayerMoved (s : GState) : Player :=
  movePlayer s.keys { s.player with lives := (tickPenalty s).lives }

/-- Phase 4: bullet movement. -/
def tickBullets (s : GState) : List Bullet :=
  updateBullets s.bullets

/-- Phase 5: enemy spawning on the incremented spawn timer, with the level
and rate already updated by phase 1. -/
def tickSpawnE (rnd : Rand) (s : GState) : ESpawnOut :=
  spawnEnemies rnd (tickLevel s).level (tickLevel s).rate
    (s.enemySpawnTimer + 1) s.enemies

/-- Phase 6: enemy movement, culling marks and player collisions, on the
spawn-extended list, starting from the penalty stage's mode. -/
def tickEnemies (rnd : Rand) (s : GState) : EnemiesOut :=
  updateEnemies (tickSpawnE rnd s).enemies (tickPlayerMoved s) (tickPenalty s).st

/-- Phase 7: the bullet-enemy collision scan, on the moved bullets and the
phase-6 enemies; starts from the penalty stage's no-hit timer. -/
def tickPass (rnd : Rand) (s : GState) : PassOut :=
  bulletEnemyPass (tickBullets s) (tickEnemies rnd s).enemies
    (tickEnemies rnd s).player.score (tickPenalty s).timer

/-- Phase 8: power-up spawning on the incremented power-up timer. -/
def tickSpawnP (rnd : Rand) (s : GState) : PSpawnOut :=
  spawnPowerUps rnd (s.powerUpTimer + 1) s.powerUps

/-- Phase 9: power-up movement and pickups, on the player as left by the
enemy loop with the score as left by the bullet pass. -/
def tickPowerUps (rnd : Rand) (s : GState) : PowerUpsOut :=
  updatePowerUps (tickSpawnP rnd s).powerUps
    { (tickEnemies rnd s).player with score := (tickPass rnd s).score }

/-- One invocation of `update` (lines 425-579): a no-op on the simulation
state unless the mode is `PLAYING`; otherwise the phases run in source
order and the tick ends by compacting the three collections. -/
def update (rnd : Rand) (s : GState) : GState :=
  if s.gameState = GameState.PLAYING then
    { gameState := (tickEnemies rnd s).st,
      player := (tickPowerUps rnd s).player,
      bullets := cullBullets (tickPass rnd s).bullets,
      enemies := cullEnemies (tickPass rnd s).enemies,
      powerUps := cullPowerUps (tickPowerUps rnd s).powerUps,
      starOffset := tickStar s,
      enemySpawnTimer := (tickSpawnE rnd s).timer,
      powerUpTimer := (tickSpawnP rnd s).timer,
      gameLevelTimer := (tickLevel s).timer,
      currentLevel := (tickLevel s).level,
      enemySpawnRate := (tickLevel s).rate,
      lastHitTimer := (tickPass rnd s).lastHit,
      playerShape := s.playerShape,
      keys := s.keys }
  else s

/-- The player record produced by `init()` (lines 87-93). -/
def initPlayer : Player :=
  { x := (WIDTH : ℚ) / 2, y := 50, size := 20, speed := 5, lives := 3, score := 0 }

/-- The program state after static initialization and `init()`: mode `MENU`
(line 16), empty collections, all timers 0, level 1, spawn rate 60
(lines 55-64), no key pressed. -/
def initState : GState :=
  { gameState := GameState.MENU, player := initPlayer,
    bullets := [], enemies := [], powerUps := [],
    starOffset := 0, enemySpawnTimer := 0, powerUpTimer := 0,
    gameLevelTimer := 0, currentLevel := 1, enemySpawnRate := 60,
    lastHitTimer := 0, playerShape := 0, keys := noKeys }

/-- The space-key branch of `keyboardDown` (lines 631-658): in `MENU` or
`GAME_OVER` it restarts — mode `PLAYING`, player reset to the default
spawn position with 3 lives and score 0, all collections cleared, level 1,
spawn rate 60, level and no-hit timers 0 (the enemy-spawn and power-up
timers are NOT touched); in `PLAYING` it appends a bullet at the player's
nose. (The `keys[' '] = true` bookkeeping write is omitted: the space
entry of the key table is never read by the simulation.) -/
def keyboardSpace (s : GState) : GState :=
  if s.gameState = GameState.MENU ∨ s.gameState = GameState.GAME_OVER then
    { s with
      gameState := GameState.PLAYING,
      player := { s.player with
        lives := 3, score := 0, x := (WIDTH : ℚ) / 2, y := 50 },
      bullets := [], enemies := [], powerUps := [],
      currentLevel := 1, enemySpawnRate := 60,
      gameLevelTimer := 0, lastHitTimer := 0, playerShape := 0 }
  else
    { s with bullets := s.bullets ++ [{
        x := s.player.x, y := s.player.y + s.player.size,
        speed := 10, active := true }] }

/-! ## Concrete states used by witnesses and counterexamples -/

/-- `initState` with the mode switched to `PLAYING`. -/
def sPlay : GState := { initState with gameState := GameState.PLAYING }

/-- A mid-run state: one life left, two active enemies about to reach the
player in the same tick. All counters are far from their thresholds. -/
def sCX : GState :=
  { gameState := GameState.PLAYING,
    player := { x := 400, y := 50, size := 20, speed := 5, lives := 1, score := 0 },
    bullets := [], powerUps := [],
    enemies := [ { x := 400, y := 60, speed := 5, active := true, type := 0 },
                 { x := 400, y := 60, speed := 5, active := true, type := 0 } ],
    starOffset := 0, enemySpawnTimer := 0, powerUpTimer := 0,
    gameLevelTimer := 0, currentLevel := 1, enemySpawnRate := 60,
    lastHitTimer := 0, playerShape := 0, keys := noKeys }

/-- An active bullet used in bullet-enemy scan scenarios. -/
def bCX : Bullet := { x := 100, y := 100, speed := 10, active := true }

/-- An active enemy 5 units above `bCX`. -/
def eCX1 : Enemy := { x := 100, y := 105, speed := 2, active := true, type := 0 }

/-- An active enemy 10 units above `bCX`. -/
def eCX2 : Enemy := { x := 100, y := 110, speed := 2, active := true, type := 0 }

/-- A game-over state whose enemy-spawn counter already stands at 60. -/
def sGO60 : GState :=
  { initState with gameState := GameState.GAME_OVER, enemySpawnTimer := 60 }

/-- A just-restarted playing state whose enemy-spawn counter stands at 60. -/
def sSpawn : GState :=
  { initState with gameState := GameState.PLAYING, enemySpawnTimer := 60 }

/-! ## Facet lemmas: the fields of `update` in the `PLAYING` case -/

theorem update_not_playing (rnd : Rand) (s : GState)
    (h : ¬ s.gameState = GameState.PLAYING) : update rnd s = s := by
  simp [update, h]

theorem update_player_eq (rnd : Rand) (s : GState)
    (h : s.gameState = GameState.PLAYING) :
    (update rnd s).player = (tickPowerUps rnd s).player := by
  simp [update, h]

theorem update_gameState_eq (rnd : Rand) (s : GState)
    (h : s.gameState = GameState.PLAYING) :
    (update rnd s).gameState = (tickEnemies rnd s).st := by
  simp [update, h]

theorem update_currentLevel_eq (rnd : Rand) (s : GState)
    (h : s.gameState = GameState.PLAYING) :
    (update rnd s).currentLevel = (tickLevel s).level := by
  simp [update, h]

theorem update_lastHitTimer_eq (rnd : Rand) (s : GState)
    (h : s.gameState = GameState.PLAYING) :
    (update rnd s).lastHitTimer = (tickPass rnd s).lastHit := by
  simp [update, h]

theorem update_bullets_eq (rnd : Rand) (s : GState)
    (h : s.gameState = GameState.PLAYING) :
    (update rnd s).bullets = cullBullets (tickPass rnd s).bullets := by
  simp [update, h]

theorem update_enemies_eq (rnd : Rand) (s : GState)
    (h : s.gameState = GameState.PLAYING) :
    (update rnd s).enemies = cullEnemies (tickPass rnd s).enemies := by
  simp [update, h]

theorem update_powerUps_eq (rnd : Rand) (s : GState)
    (h : s.gameState = GameState.PLAYING) :
    (update rnd s).powerUps = cullPowerUps (tickPowerUps rnd s).powerUps := by
  simp [update, h]

/-! ## Helper lemmas about the individual phases -/

theorem levelStep_level_le (lvl rate : Int) (glt : ℚ) :
    lvl ≤ (levelStep lvl rate glt).level := by
  unfold levelStep
  split_ifs <;> simp

theorem penaltyStep_fire (lht : ℚ) (lives : Int) (st : GameState)
    (h1 : lht ≥ 300) (h2 : lives > 0) :
    penaltyStep lht lives st =
      { timer := 0, lives := lives - 1,
        st := if lives - 1 ≤ 0 then GameState.GAME_OVER else st } := by
  simp [penaltyStep, h1, h2]

theorem penaltyStep_skip (lht : ℚ) (lives : Int) (st : GameState)
    (h : lht < 300) :
    penaltyStep lht lives st = { timer := lht, lives := lives, st := st } := by
  simp [penaltyStep, not_le.mpr h]

theorem bulletEnemyPass_nil (es : List Enemy) (sc : Int) (lht : ℚ) :
    bulletEnemyPass [] es sc lht =
      { bullets := [], enemies := es, score := sc, lastHit := lht } := rfl

/-! ## Claim C4: level progression -/

/-- Claim C4: when the level-elapsed counter reaches 900 during a tick, a
level below 3 is incremented and the spawn interval becomes
`60 - (currentLevel - 1) * 25` (so level 2 gives 35 and level 3 gives 10),
the counter is reset whether or not a level-up occurred, a third
occurrence leaves the level capped at 3, and `currentLevel` never
decreases across any tick. -/
theorem spec_c4_level_progression :
    (∀ (lvl rate : Int) (glt : ℚ), glt ≥ 900 → lvl < 3 →
        levelStep lvl rate glt =
          { level := lvl + 1, rate := 60 - lvl * 25, timer := 0 }) ∧
    (∀ (lvl rate : Int) (glt : ℚ), glt ≥ 900 → ¬ lvl < 3 →
        levelStep lvl rate glt = { level := lvl, rate := rate, timer := 0 }) ∧
    levelStep 1 60 900 = { level := 2, rate := 35, timer := 0 } ∧
    levelStep 2 35 900 = { level := 3, rate := 10, timer := 0 } ∧
    levelStep 3 10 900 = { level := 3, rate := 10, timer := 0 } ∧
    (∀ (rnd : Rand) (s : GState), s.currentLevel ≤ (update rnd s).currentLevel) := by
  refine ⟨?_, ?_, ?_, ?_, ?_, ?_⟩
  · intro lvl rate glt h1 h2
    simp [levelStep, h1, h2]
  · intro lvl rate glt h1 h2
    simp [levelStep, h1, h2]
  · norm_num [levelStep]
  · norm_num [levelStep]
  · norm_num [levelStep]
  · intro rnd s
    by_cases h : s.gameState = GameState.PLAYING
    · rw [update_currentLevel_eq rnd s h]
      exact levelStep_level_le _ _ _
    · rw [update_not_playing rnd s h]

/-- Witness for C4: the first level-up, from level 1 at counter 900. -/
theorem spec_c4_level_progression_witness :
    levelStep 1 60 900 = { level := 2, rate := 35, timer := 0 } := by
  have h := spec_c4_level_progression.1 1 60 900 (by norm_num) (by norm_num)
  simpa using h

/-! ## Claim C5: survival penalty -/

/-- Claim C5: when the no-hit counter reaches 300 with lives > 0, lives drop
by exactly one and the counter resets to 0 (transitioning to `GAME_OVER`
exactly when the decrement reaches 0); below 300 the penalty block changes
nothing; and on a full playing tick with no bullets in flight the no-hit
counter advances by exactly 1 while it is below the threshold, so the
penalty cannot fire again until another 300 hitless ticks elapse. -/
theorem spec_c5_survival_penalty :
    (∀ (lht : ℚ) (lives : Int) (st : GameState), lht ≥ 300 → lives > 0 →
        penaltyStep lht lives st =
          { timer := 0, lives := lives - 1,
            st := if lives - 1 ≤ 0 then GameState.GAME_OVER else st }) ∧
    (∀ (lht : ℚ) (lives : Int) (st : GameState), lht < 300 →
        penaltyStep lht lives st = { timer := lht, lives := lives, st := st }) ∧
    (∀ (rnd : Rand) (s : GState), s.gameState = GameState.PLAYING →
        s.bullets = [] → s.lastHitTimer + 1 < 300 →
        (update rnd s).lastHitTimer = s.lastHitTimer + 1) := by
  refine ⟨penaltyStep_fire, penaltyStep_skip, ?_⟩
  intro rnd s h hb hl
  rw [update_lastHitTimer_eq rnd s h]
  unfold tickPass tickBullets updateBullets
  rw [hb]
  simp only [List.map_nil, bulletEnemyPass_nil]
  unfold tickPenalty
  rw [penaltyStep_skip _ _ _ hl]

/-- Witness for C5: the penalty firing at one life transitions to game
over, and a hitless bulletless playing tick advances the counter by 1. -/
theorem spec_c5_survival_penalty_witness :
    penaltyStep 300 1 GameState.PLAYING =
      { timer := 0, lives := 0, st := GameState.GAME_OVER } ∧
    (update rnd0 sPlay).lastHitTimer = 1 := by
  constructor
  · have h := spec_c5_survival_penalty.1 300 1 GameState.PLAYING
      (by norm_num) (by norm_num)
    simpa using h
  · have h := spec_c5_survival_penalty.2.2 rnd0 sPlay rfl rfl (by norm_num [sPlay, initState])
    simpa [sPlay, initState] using h

/-! ## Claim C3: effect of one bullet-enemy check -/

/-- Claim C3: for an active bullet checked against an active enemy, a
center distance below 20 deactivates both, adds exactly 10 to the score
and resets the no-hit counter to 0; a distance of at least 20 leaves the
bullet, the enemy, the score and the no-hit counter untouched. -/
theorem spec_c3_bullet_enemy_check (b : Bullet) (e : Enemy) (sc : Int) (lht : ℚ)
    (hb : b.active = true) (he : e.active = true) :
    (distLt (b.x - e.x) (b.y - e.y) 20 = true →
      bulletEnemyPass [b] [e] sc lht =
        { bullets := [{ b with active := false }],
          enemies := [{ e with active := false }],
          score := sc + 10, lastHit := 0 }) ∧
    (distLt (b.x - e.x) (b.y - e.y) 20 = false →
      bulletEnemyPass [b] [e] sc lht =
        { bullets := [b], enemies := [e], score := sc, lastHit := lht }) := by
  constructor
  · intro hd
    simp [bulletEnemyPass, scanEnemies, hb, he, hd]
  · intro hd
    simp [bulletEnemyPass, scanEnemies, hb, he, hd]

/-- Witness for C3: a hit at distance 5 and a miss at distance 40. -/
theorem spec_c3_bullet_enemy_check_witness :
    bulletEnemyPass [bCX] [eCX1] 3 7 =
      { bullets := [{ bCX with active := false }],
        enemies := [{ eCX1 with active := false }],
        score := 13, lastHit := 0 } ∧
    bulletEnemyPass [bCX] [{ eCX1 with y := 140 }] 3 7 =
      { bullets := [bCX], enemies := [{ eCX1 with y := 140 }],
        score := 3, lastHit := 7 } := by
  constructor
  · have h := (spec_c3_bullet_enemy_check bCX eCX1 3 7 rfl rfl).1
      (by norm_num [distLt, bCX, eCX1])
    simpa using h
  · have h := (spec_c3_bullet_enemy_check bCX { eCX1 with y := 140 } 3 7 rfl rfl).2
      (by norm_num [distLt, bCX, eCX1])
    simpa using h

/-! ## Claim C2: how many enemies one bullet can hit in one tick -/

/-- In the inner scan, enemies that are already inactive are never matched:
a scan over a fully inactive list changes nothing. -/
theorem scanEnemies_all_inactive (b : Bullet) (es : List Enemy) (sc : Int)
    (lht : ℚ) (h : ∀ e ∈ es, e.active = false) :
    scanEnemies b es sc lht =
      { bullet := b, enemies := es, score := sc, lastHit := lht } := by
  induction es generalizing sc lht with
  | nil => rfl
  | cons e es ih =>
    have he := h e (by simp)
    simp [scanEnemies, he, ih _ _ (fun e' h' => h e' (by simp [h']))]

/-- One-step unfolding of the inner scan on a nonempty enemy list. -/
theorem scanEnemies_cons (b : Bullet) (e : Enemy) (es : List Enemy) (sc : Int)
    (lht : ℚ) :
    scanEnemies b (e :: es) sc lht =
      if e.active && distLt (b.x - e.x) (b.y - e.y) 20 then
        { bullet := (scanEnemies { b with active := false } es (sc + 10) 0).bullet,
          enemies := { e with active := false } ::
            (scanEnemies { b with active := false } es (sc + 10) 0).enemies,
          score := (scanEnemies { b with active := false } es (sc + 10) 0).score,
          lastHit := (scanEnemies { b with active := false } es (sc + 10) 0).lastHit }
      else
        { bullet := (scanEnemies b es sc lht).bullet,
          enemies := e :: (scanEnemies b es sc lht).enemies,
          score := (scanEnemies b es sc lht).score,
          lastHit := (scanEnemies b es sc lht).lastHit } := rfl

/-- The inner scan never reactivates a bullet: a dead bullet stays dead. -/
theorem scanEnemies_bullet_inactive (es : List Enemy) :
    ∀ (b : Bullet) (sc : Int) (lht : ℚ), b.active = false →
      (scanEnemies b es sc lht).bullet.active = false := by
  induction es with
  | nil => intro b sc lht h; simpa [scanEnemies] using h
  | cons e es ih =>
    intro b sc lht h
    rw [scanEnemies_cons]
    split_ifs with hc
    · exact ih _ _ _ (by simp)
    · exact ih _ _ _ h

/-- In the inner scan, a bullet deactivates EVERY still-active enemy within
distance 20 — its own deactivation is never re-checked — scoring 10 per
enemy. -/
theorem scanEnemies_all_hit (b : Bullet) (es : List Enemy) (sc : Int) (lht : ℚ)
    (h : ∀ e ∈ es, e.active = true ∧ distLt (b.x - e.x) (b.y - e.y) 20 = true) :
    (es ≠ [] → (scanEnemies b es sc lht).bullet.active = false) ∧
    (∀ e' ∈ (scanEnemies b es sc lht).enemies, e'.active = false) ∧
    (scanEnemies b es sc lht).score = sc + 10 * es.length := by
  induction es generalizing b sc lht with
  | nil => simp [scanEnemies]
  | cons e es ih =>
    have he := h e (by simp)
    have hrest : ∀ e' ∈ es,
        e'.active = true ∧
          distLt (({ b with active := false } : Bullet).x - e'.x)
            (({ b with active := false } : Bullet).y - e'.y) 20 = true := by
      intro e' h'
      simpa using h e' (by simp [h'])
    have ihr := ih { b with active := false } (sc + 10) 0 hrest
    rw [scanEnemies_cons, if_pos (by simp [he.1, he.2])]
    refine ⟨?_, ?_, ?_⟩
    · intro _
      exact scanEnemies_bullet_inactive es _ _ _ (by simp)
    · intro e' h'
      simp only [List.mem_cons] at h'
      rcases h' with h' | h'
      · simp [h']
      · exact ihr.2.1 e' h'
    · show (scanEnemies { b with active := false } es (sc + 10) 0).score =
        sc + 10 * (e :: es).length
      rw [ihr.2.2]
      simp only [List.length_cons]
      push_cast
      ring

/-- Counterexample to C2: one active bullet within distance 20 of two
still-active enemies deactivates BOTH of them in the same tick's scan
(and scores twice), because the bullet's own `active` flag is tested only
once, before its inner scan — not re-tested after the first hit. -/
theorem spec_c2_counterexample :
    bCX.active = true ∧ eCX1.active = true ∧ eCX2.active = true ∧
    (bulletEnemyPass [bCX] [eCX1, eCX2] 0 50).enemies.map Enemy.active =
      [false, false] ∧
    (bulletEnemyPass [bCX] [eCX1, eCX2] 0 50).score = 20 := by
  refine ⟨rfl, rfl, rfl, ?_, ?_⟩ <;>
    norm_num [bulletEnemyPass, scanEnemies, distLt, bCX, eCX1, eCX2]

/-- Claim C2 as amended: within one tick's scan an enemy that is already
inactive can never be matched again (a scan over inactive enemies is a
no-op), but a bullet is NOT limited to its first overlapping enemy: its
deactivation is not re-checked during its own inner scan, so it
deactivates every still-active enemy within distance 20, scoring 10 for
each. -/
theorem spec_c2_scan_behavior :
    (∀ (b : Bullet) (es : List Enemy) (sc : Int) (lht : ℚ),
      (∀ e ∈ es, e.active = false) →
      scanEnemies b es sc lht =
        { bullet := b, enemies := es, score := sc, lastHit := lht }) ∧
    (∀ (b : Bullet) (es : List Enemy) (sc : Int) (lht : ℚ),
      (∀ e ∈ es, e.active = true ∧ distLt (b.x - e.x) (b.y - e.y) 20 = true) →
      (es ≠ [] → (scanEnemies b es sc lht).bullet.active = false) ∧
      (∀ e' ∈ (scanEnemies b es sc lht).enemies, e'.active = false) ∧
      (scanEnemies b es sc lht).score = sc + 10 * es.length) :=
  ⟨scanEnemies_all_inactive, scanEnemies_all_hit⟩

/-- Witness for amended C2: scanning two dead enemies changes nothing, and
one bullet over two live overlapping enemies scores 20. -/
theorem spec_c2_scan_behavior_witness :
    scanEnemies bCX [{ eCX1 with active := false }] 3 7 =
      { bullet := bCX, enemies := [{ eCX1 with active := false }],
        score := 3, lastHit := 7 } ∧
    (scanEnemies bCX [eCX1, eCX2] 0 50).score = 0 + 10 * 2 := by
  constructor
  · exact spec_c2_scan_behavior.1 bCX [{ eCX1 with active := false }] 3 7
      (by intro e h; simp at h; simp [h])
  · have h := (spec_c2_scan_behavior.2 bCX [eCX1, eCX2] 0 50
      (by intro e h; simp at h;
          rcases h with h | h <;> subst h <;>
            exact ⟨rfl, by norm_num [distLt, bCX, eCX1, eCX2]⟩)).2.2
    simpa using h

/-! ## Claim C1: bounds on `player.lives` across a tick -/

theorem movePlayer_lives (k : Keys) (p : Player) :
    (movePlayer k p).lives = p.lives := by
  unfold movePlayer
  split_ifs <;> rfl

theorem penaltyStep_lives_le (lht : ℚ) (lives : Int) (st : GameState) :
    (penaltyStep lht lives st).lives ≤ lives := by
  unfold penaltyStep
  split
  · show (if lives > 0 then lives - 1 else lives) ≤ lives
    split <;> omega
  · exact le_refl _

theorem penaltyStep_playing_nonneg (lht : ℚ) (lives : Int) (st : GameState)
    (h : st = GameState.PLAYING → 0 ≤ lives) :
    (penaltyStep lht lives st).st = GameState.PLAYING →
      0 ≤ (penaltyStep lht lives st).lives := by
  unfold penaltyStep
  split
  · show (if (if lives > 0 then lives - 1 else lives) ≤ 0 then
        GameState.GAME_OVER else st) = GameState.PLAYING →
      0 ≤ (if lives > 0 then lives - 1 else lives)
    intro hst
    by_cases h2 : (if lives > 0 then lives - 1 else lives) ≤ 0
    · rw [if_pos h2] at hst
      exact GameState.noConfusion hst
    · omega
  · exact h

theorem enemyPlayerStep_lives_le (p : Player) (st : GameState) (e : Enemy) :
    (enemyPlayerStep p st e).player.lives ≤ p.lives := by
  unfold enemyPlayerStep
  dsimp only
  split_ifs <;> dsimp only <;> omega

theorem enemyPlayerStep_playing_nonneg (p : Player) (st : GameState) (e : Enemy)
    (h : st = GameState.PLAYING → 0 ≤ p.lives) :
    (enemyPlayerStep p st e).st = GameState.PLAYING →
      0 ≤ (enemyPlayerStep p st e).player.lives := by
  unfold enemyPlayerStep
  dsimp only
  split_ifs <;> dsimp only <;> intro hst <;>
    first
    | exact GameState.noConfusion hst
    | exact hst.elim
    | omega
    | exact h hst

theorem updateEnemies_lives_le (es : List Enemy) (p : Player) (st : GameState) :
    (updateEnemies es p st).player.lives ≤ p.lives := by
  induction es generalizing p st with
  | nil => simp [updateEnemies]
  | cons e es ih =>
    calc (updateEnemies (e :: es) p st).player.lives
        ≤ (enemyPlayerStep p st e).player.lives := ih _ _
      _ ≤ p.lives := enemyPlayerStep_lives_le p st e

theorem updateEnemies_playing_nonneg (es : List Enemy) (p : Player)
    (st : GameState) (h : st = GameState.PLAYING → 0 ≤ p.lives) :
    (updateEnemies es p st).st = GameState.PLAYING →
      0 ≤ (updateEnemies es p st).player.lives := by
  induction es generalizing p st with
  | nil => simpa [updateEnemies] using h
  | cons e es ih =>
    exact ih _ _ (enemyPlayerStep_playing_nonneg p st e h)

theorem powerUpStep_lives_le5 (pl : Player) (pu : PowerUp)
    (h : pl.lives ≤ 5) : (powerUpStep pl pu).player.lives ≤ 5 := by
  unfold powerUpStep
  dsimp only
  split_ifs <;> dsimp only <;> omega

theorem powerUpStep_lives_nonneg (pl : Player) (pu : PowerUp)
    (h : 0 ≤ pl.lives) : 0 ≤ (powerUpStep pl pu).player.lives := by
  unfold powerUpStep
  dsimp only
  split_ifs <;> dsimp only <;> omega

theorem updatePowerUps_lives_le5 (ps : List PowerUp) (pl : Player)
    (h : pl.lives ≤ 5) : (updatePowerUps ps pl).player.lives ≤ 5 := by
  induction ps generalizing pl with
  | nil => simpa [updatePowerUps] using h
  | cons pu ps ih =>
    exact ih _ (powerUpStep_lives_le5 pl pu h)

theorem updatePowerUps_lives_nonneg (ps : List PowerUp) (pl : Player)
    (h : 0 ≤ pl.lives) : 0 ≤ (updatePowerUps ps pl).player.lives := by
  induction ps generalizing pl with
  | nil => simpa [updatePowerUps] using h
  | cons pu ps ih =>
    exact ih _ (powerUpStep_lives_nonneg pl pu h)

/-- Counterexample to C1: from a legal playing state with one life and two
active enemies reaching the player in the same tick, the tick ends with
`lives = -1`: the player-enemy collision decrement (line 511) has no lower
guard and the enemy loop keeps running after the `GAME_OVER` transition,
so several collisions in one tick drive lives below 0. -/
theorem spec_c1_counterexample :
    0 ≤ sCX.player.lives ∧ sCX.player.lives ≤ 5 ∧
    (update rnd0 sCX).player.lives = -1 := by
  refine ⟨by norm_num [sCX], by norm_num [sCX], ?_⟩
  norm_num [update, sCX, tickPowerUps, tickSpawnP, tickEnemies, tickSpawnE,
    tickPlayerMoved, tickPenalty, tickLevel, tickBullets, tickPass, tickStar,
    updateBullets, updateEnemies, updatePowerUps, spawnEnemies, spawnPowerUps,
    bulletEnemyPass, scanEnemies, enemyPlayerStep, powerUpStep, penaltyStep,
    levelStep, movePlayer, bulletMove, distLt, cullBullets, cullEnemies,
    cullPowerUps, rnd0, noKeys, WIDTH, HEIGHT]

/-- Claim C1 as amended: starting a tick with `0 ≤ lives ≤ 5`, the tick
always preserves `lives ≤ 5` (the power-up increment is guarded at 5), and
`0 ≤ lives` holds after the tick whenever the tick ends still in `PLAYING`
mode; but when the tick transitions to `GAME_OVER`, the unguarded
player-enemy decrements can leave `lives` negative (one per collision
beyond the first that exhausts the lives). -/
theorem spec_c1_lives_bounds (rnd : Rand) (s : GState)
    (h0 : 0 ≤ s.player.lives) (h5 : s.player.lives ≤ 5) :
    (update rnd s).player.lives ≤ 5 ∧
    ((update rnd s).gameState = GameState.PLAYING →
      0 ≤ (update rnd s).player.lives) := by
  by_cases h : s.gameState = GameState.PLAYING
  · have hplives : (tickPlayerMoved s).lives = (tickPenalty s).lives := by
      unfold tickPlayerMoved
      rw [movePlayer_lives]
    constructor
    · rw [update_player_eq rnd s h]
      unfold tickPowerUps
      apply updatePowerUps_lives_le5
      simp only []
      calc ({ (tickEnemies rnd s).player with
                score := (tickPass rnd s).score } : Player).lives
          = (tickEnemies rnd s).player.lives := rfl
        _ ≤ (tickPlayerMoved s).lives := by
            unfold tickEnemies
            exact updateEnemies_lives_le _ _ _
        _ = (tickPenalty s).lives := hplives
        _ ≤ s.player.lives := by
            unfold tickPenalty
            exact penaltyStep_lives_le _ _ _
        _ ≤ 5 := h5
    · rw [update_player_eq rnd s h, update_gameState_eq rnd s h]
      intro hst
      unfold tickPowerUps
      apply updatePowerUps_lives_nonneg
      have hpen : (tickPenalty s).st = GameState.PLAYING →
          0 ≤ (tickPenalty s).lives := by
        unfold tickPenalty
        exact penaltyStep_playing_nonneg _ _ _ (fun _ => h0)
      have henem := updateEnemies_playing_nonneg (tickSpawnE rnd s).enemies
        (tickPlayerMoved s) (tickPenalty s).st
        (by rw [hplives]; exact hpen)
      unfold tickEnemies at hst
      exact henem hst
  · rw [update_not_playing rnd s h]
    exact ⟨h5, fun _ => h0⟩

/-- Witness for amended C1: the bounds hold across one tick from the
initial playing state. -/
theorem spec_c1_lives_bounds_witness :
    (update rnd0 sPlay).player.lives ≤ 5 ∧
    ((update rnd0 sPlay).gameState = GameState.PLAYING →
      0 ≤ (update rnd0 sPlay).player.lives) :=
  spec_c1_lives_bounds rnd0 sPlay (by norm_num [sPlay, initState, initPlayer])
    (by norm_num [sPlay, initState, initPlayer])

/-! ## Claim C6: the restart transition resets the run state -/

/-- Claim C6: from `MENU` or `GAME_OVER`, the confirm action yields mode
`PLAYING` with lives 3, score 0, level 1, spawn rate 60, empty entity
collections, the player at the default spawn position, and the
level-elapsed and no-hit counters at 0 — all constants, independent of the
prior state. -/
theorem spec_c6_restart_reset (s : GState)
    (h : s.gameState = GameState.MENU ∨ s.gameState = GameState.GAME_OVER) :
    (keyboardSpace s).gameState = GameState.PLAYING ∧
    (keyboardSpace s).player.lives = 3 ∧
    (keyboardSpace s).player.score = 0 ∧
    (keyboardSpace s).currentLevel = 1 ∧
    (keyboardSpace s).enemySpawnRate = 60 ∧
    (keyboardSpace s).bullets = [] ∧
    (keyboardSpace s).enemies = [] ∧
    (keyboardSpace s).powerUps = [] ∧
    (keyboardSpace s).player.x = initPlayer.x ∧
    (keyboardSpace s).player.y = initPlayer.y ∧
    (keyboardSpace s).gameLevelTimer = 0 ∧
    (keyboardSpace s).lastHitTimer = 0 := by
  unfold keyboardSpace
  rw [if_pos h]
  simp [initPlayer]

/-- Witness for C6: restart out of a game-over state. -/
theorem spec_c6_restart_reset_witness :
    (keyboardSpace sGO60).gameState = GameState.PLAYING ∧
    (keyboardSpace sGO60).player.lives = 3 ∧
    (keyboardSpace sGO60).player.score = 0 ∧
    (keyboardSpace sGO60).currentLevel = 1 ∧
    (keyboardSpace sGO60).enemySpawnRate = 60 ∧
    (keyboardSpace sGO60).bullets = [] ∧
    (keyboardSpace sGO60).enemies = [] ∧
    (keyboardSpace sGO60).powerUps = [] ∧
    (keyboardSpace sGO60).player.x = initPlayer.x ∧
    (keyboardSpace sGO60).player.y = initPlayer.y ∧
    (keyboardSpace sGO60).gameLevelTimer = 0 ∧
    (keyboardSpace sGO60).lastHitTimer = 0 :=
  spec_c6_restart_reset sGO60 (Or.inr rfl)

/-! ## Claim C7: enemy spawn position -/

/-- Claim C7 evaluated at its failing input: with both `rand()` draws 0 the
spawner places an enemy at `x = 0` (the enemy bodies extend 15-20 units to
each side, so this enemy overhangs the left playfield edge), while `y` is
the top boundary; draws 759 and 19 show the upper end `x = 778` of the
range `rand() % (WIDTH - 40) + rand() % 20`. -/
theorem spec_c7_enemy_spawn_position :
    (spawnEnemies rnd0 1 60 61 []).enemies.map Enemy.x = [0] ∧
    (spawnEnemies rnd0 1 60 61 []).enemies.map Enemy.y = [(HEIGHT : ℚ)] ∧
    (spawnEnemies ⟨759, 19, 0, 0, 0⟩ 1 60 61 []).enemies.map Enemy.x = [778] := by
  refine ⟨?_, ?_, ?_⟩ <;> norm_num [spawnEnemies, rnd0, WIDTH, HEIGHT]

/-! ## Claim C8: power-up pickup -/

/-- Claim C8: when the player overlaps an active power-up (distance to the
moved power-up below `player.size + 10`), the power-up is deactivated,
lives are incremented by 1 capped at 5, and the score rises by exactly 20
— also at 5 lives, where lives stay 5 and the 20 points still accrue. -/
theorem spec_c8_powerup_pickup (pl : Player) (pu : PowerUp)
    (ha : pu.active = true) (h5 : pl.lives ≤ 5)
    (hd : distLt (pu.x - pl.x) (pu.y - pu.speed - pl.y) (pl.size + 10) = true) :
    (powerUpStep pl pu).powerUp.active = false ∧
    (powerUpStep pl pu).player.lives = min (pl.lives + 1) 5 ∧
    (powerUpStep pl pu).player.score = pl.score + 20 := by
  unfold powerUpStep
  dsimp only
  split_ifs <;> dsimp only <;> (refine ⟨rfl, ?_, rfl⟩; omega)

/-- A player with full lives, used for the C8 witness. -/
def plW : Player := { x := 400, y := 50, size := 20, speed := 5, lives := 5, score := 7 }

/-- A power-up about to be picked up by `plW`, used for the C8 witness. -/
def puW : PowerUp := { x := 400, y := 60, speed := 5, active := true }

/-- Witness for C8: a pickup at 5 lives keeps 5 lives and adds 20 score. -/
theorem spec_c8_powerup_pickup_witness :
    (powerUpStep plW puW).powerUp.active = false ∧
    (powerUpStep plW puW).player.lives = 5 ∧
    (powerUpStep plW puW).player.score = 27 := by
  have h := spec_c8_powerup_pickup plW puW rfl (by norm_num [plW])
    (by norm_num [distLt, plW, puW])
  simpa [plW] using h

/-! ## Claim C9: end-of-tick compaction -/

/-- Claim C9: at the end of every playing tick no inactive bullet, enemy or
power-up survives into the next tick, and the compaction (a filter on the
active flag) preserves the relative order of the remaining elements (it
yields a sublist of the pre-compaction collection). -/
theorem spec_c9_cull (rnd : Rand) (s : GState)
    (h : s.gameState = GameState.PLAYING) :
    (∀ b ∈ (update rnd s).bullets, b.active = true) ∧
    (∀ e ∈ (update rnd s).enemies, e.active = true) ∧
    (∀ p ∈ (update rnd s).powerUps, p.active = true) ∧
    (∀ bs : List Bullet, (cullBullets bs).Sublist bs) ∧
    (∀ es : List Enemy, (cullEnemies es).Sublist es) ∧
    (∀ ps : List PowerUp, (cullPowerUps ps).Sublist ps) := by
  refine ⟨?_, ?_, ?_, fun bs => List.filter_sublist _,
    fun es => List.filter_sublist _, fun ps => List.filter_sublist _⟩
  · rw [update_bullets_eq rnd s h]
    intro b hb
    exact (List.mem_filter.mp hb).2
  · rw [update_enemies_eq rnd s h]
    intro e he
    exact (List.mem_filter.mp he).2
  · rw [update_powerUps_eq rnd s h]
    intro p hp
    exact (List.mem_filter.mp hp).2

/-- The enemy present at the end of the tick from `sSpawn` (spawned at
x = 0 with the all-zero draws, fallen to y = 597.5). -/
def eW : Enemy := { x := 0, y := 1195 / 2, speed := 5 / 2, active := true, type := 0 }

/-- Witness for C9: the enemy surviving the `sSpawn` tick is active. -/
theorem spec_c9_cull_witness : eW.active = true :=
  (spec_c9_cull rnd0 sSpawn rfl).2.1 eW (by
    norm_num [update, sSpawn, initState, initPlayer, eW, tickPowerUps,
      tickSpawnP, tickEnemies, tickSpawnE, tickPlayerMoved, tickPenalty,
      tickLevel, tickBullets, tickPass, tickStar, updateBullets,
      updateEnemies, updatePowerUps, spawnEnemies, spawnPowerUps,
      bulletEnemyPass, scanEnemies, enemyPlayerStep, powerUpStep,
      penaltyStep, levelStep, movePlayer, bulletMove, distLt, cullBullets,
      cullEnemies, cullPowerUps, rnd0, noKeys, WIDTH, HEIGHT])

/-! ## Claim C10: restart does not reset the spawn counters -/

/-- Claim C10: the confirm/restart transition leaves the enemy-spawn and
power-up spawn counters unchanged, so a run restarted with the enemy-spawn
counter already at 60 spawns its first enemy on the very first tick, while
a fresh run from process init spawns none on its first tick. -/
theorem spec_c10_spawn_timers_survive_restart (s : GState)
    (h : s.gameState = GameState.MENU ∨ s.gameState = GameState.GAME_OVER) :
    ((keyboardSpace s).enemySpawnTimer = s.enemySpawnTimer ∧
     (keyboardSpace s).powerUpTimer = s.powerUpTimer) ∧
    ((update rnd0 (keyboardSpace sGO60)).enemies.length = 1 ∧
     (update rnd0 (keyboardSpace initState)).enemies.length = 0) := by
  refine ⟨?_, ?_, ?_⟩
  · unfold keyboardSpace
    rw [if_pos h]
    exact ⟨rfl, rfl⟩
  · norm_num [update, keyboardSpace, sGO60, initState, initPlayer,
      tickPowerUps, tickSpawnP, tickEnemies, tickSpawnE, tickPlayerMoved,
      tickPenalty, tickLevel, tickBullets, tickPass, tickStar,
      updateBullets, updateEnemies, updatePowerUps, spawnEnemies,
      spawnPowerUps, bulletEnemyPass, scanEnemies, enemyPlayerStep,
      powerUpStep, penaltyStep, levelStep, movePlayer, bulletMove, distLt,
      cullBullets, cullEnemies, cullPowerUps, rnd0, noKeys, WIDTH, HEIGHT]
  · norm_num [update, keyboardSpace, sGO60, initState, initPlayer,
      tickPowerUps, tickSpawnP, tickEnemies, tickSpawnE, tickPlayerMoved,
      tickPenalty, tickLevel, tickBullets, tickPass, tickStar,
      updateBullets, updateEnemies, updatePowerUps, spawnEnemies,
      spawnPowerUps, bulletEnemyPass, scanEnemies, enemyPlayerStep,
      powerUpStep, penaltyStep, levelStep, movePlayer, bulletMove, distLt,
      cullBullets, cullEnemies, cullPowerUps, rnd0, noKeys, WIDTH, HEIGHT]

/-- Witness for C10: the preservation applied to the game-over state with
spawn counter 60. -/
theorem spec_c10_spawn_timers_survive_restart_witness :
    (keyboardSpace sGO60).enemySpawnTimer = sGO60.enemySpawnTimer ∧
    (keyboardSpace sGO60).powerUpTimer = sGO60.powerUpTimer :=
  (spec_c10_spawn_timers_survive_restart sGO60 (Or.inr rfl)).1

end SpaceDefender
